import Mathlib

/-
Verification development for the musicplay backend (src/main.py).

The file shallowly embeds the request handlers of the Flask application:
the yt-dlp command builder `_build_yt_dlp_command`, the SSE generator
`generate_events` of `/search_and_prepare_song_sse`, and the
`/stream_audio/<video_id>` handler with its `generate_audio_chunks`
relay loop.  External effects (the filesystem, the ytmusic search call,
subprocess outcomes, the byte stream, client disconnects) are modelled
as explicit parameters; the control flow and the data produced on each
path are translated from the source.
-/

/-! ## Python option values and the yt-dlp command builder

Embeds `_build_yt_dlp_command` (src/main.py lines 47-67).  A Python
option value is a bool, a string, an int, or a list (floats in this
program never occur as option values; ints stand in for the numeric
scalar case, stringified exactly as Python does).  The filesystem check
`os.path.exists` is modelled by an explicit predicate `fs`. -/

inductive PyVal where
  | vBool (b : Bool)
  | vStr (s : String)
  | vInt (n : Int)
  | vList (items : List String)
deriving DecidableEq

/-- Python `k.replace("_", "-")` for a single-character pattern:
replace every underscore by a hyphen. -/
def hyphenate (k : String) : String :=
  String.mk (k.data.map (fun c => if c = '_' then '-' else c))

/-- The string Python would pass to `os.path.exists` for a cookies value
(in this program the cookies value is always a path string). -/
def pathArg : PyVal → String
  | .vBool _ => ""
  | .vStr s => s
  | .vInt n => toString n
  | .vList _ => ""

/-- The arguments contributed by one `(key, value)` entry of the options
dict, following the loop body of `_build_yt_dlp_command`: a non-existent
cookies file is skipped; a true bool becomes the lone flag
`--<key with underscores hyphenated>` (both branches of the source's
if/else append the same flag); a false bool contributes nothing; a
string or int scalar becomes the flag followed by the stringified
value; a list repeats the flag before each stringified item. -/
def optFragment (fs : String → Bool) (k : String) (v : PyVal) : List String :=
  if k = "cookies" ∧ ¬ fs (pathArg v) then []
  else
    match v with
    | .vBool b => if b then ["--" ++ hyphenate k] else []
    | .vStr s => ["--" ++ hyphenate k, s]
    | .vInt n => ["--" ++ hyphenate k, toString n]
    | .vList items => items.flatMap (fun it => ["--" ++ hyphenate k, it])

/-- Embeds `_build_yt_dlp_command`: start from the base command list and
append each option's fragment in dict (insertion) order. -/
def buildYtDlpCommand (fs : String → Bool) (base : List String)
    (opts : List (String × PyVal)) : List String :=
  base ++ opts.flatMap (fun kv => optFragment fs kv.1 kv.2)

/-- The cookies path constant (`COOKIES_FILE_PATH`, made absolute in the
source; the absolute path is opaque here). -/
def absoluteCookiesPath : String := "cookies.txt"

/-- Embeds `get_ydl_opts`: the base options `quiet = False`,
`no_warnings = False`, then the cookies path when the file exists, then
the caller's extra options (dict update appends the new keys in
order). -/
def getYdlOpts (fs : String → Bool) (extra : List (String × PyVal)) :
    List (String × PyVal) :=
  [("quiet", PyVal.vBool false), ("no_warnings", PyVal.vBool false)]
    ++ (if fs absoluteCookiesPath
          then [("cookies", PyVal.vStr absoluteCookiesPath)] else [])
    ++ extra

/-- The watch URL built from a video id
(`https://music.youtube.com/watch?v=<id>`). -/
def watchUrl (videoId : String) : String :=
  "https://music.youtube.com/watch?v=" ++ videoId

/-! ## The byte relay loop

Embeds the loop `for chunk in iter(lambda: ffmpeg_process.stdout.read(8192), b'')`
of `generate_audio_chunks` (src/main.py line 277).  The source stream is
a list of bytes; a blocking `read(8192)` on a pipe returns between 1 and
8192 bytes while data remains and exactly 0 bytes at end of stream, so
the loop is parametrised by a read schedule `sched` giving the size each
read call actually returns (clamped to the interval [1, 8192] and to the
remaining data).  The loop stops at the first zero-length read, i.e.
exactly when the source is exhausted. -/

def relayChunks (sched : Nat → Nat) (i : Nat) (s : List Nat) : List (List Nat) :=
  if s = [] then []
  else
    let k := max 1 (min 8192 (sched i))
    s.take k :: relayChunks sched (i + 1) (s.drop k)
termination_by s.length
decreasing_by
  simp only [List.length_drop]
  rename_i hs
  have hpos : 0 < s.length := List.length_pos.mpr hs
  omega

theorem relayChunks_nil (sched : Nat → Nat) (i : Nat) :
    relayChunks sched i [] = [] := by
  rw [relayChunks]
  simp

theorem relayChunks_flatten_aux (n : Nat) :
    ∀ (sched : Nat → Nat) (i : Nat) (s : List Nat), s.length ≤ n →
      (relayChunks sched i s).flatten = s := by
  induction n with
  | zero =>
    intro sched i s h
    have hs : s = [] := List.eq_nil_of_length_eq_zero (Nat.le_zero.mp h)
    rw [hs, relayChunks_nil]
    rfl
  | succ m ih =>
    intro sched i s h
    by_cases hs : s = []
    · rw [hs, relayChunks_nil]; rfl
    · rw [relayChunks]
      simp only [hs, if_false]
      have hk : 1 ≤ max 1 (min 8192 (sched i)) := le_max_left _ _
      have hlen : (s.drop (max 1 (min 8192 (sched i)))).length ≤ m := by
        simp only [List.length_drop]
        have hpos : 0 < s.length := List.length_pos.mpr hs
        omega
      rw [List.flatten_cons, ih sched (i + 1) _ hlen]
      exact List.take_append_drop _ s

theorem relayChunks_flatten (sched : Nat → Nat) (i : Nat) (s : List Nat) :
    (relayChunks sched i s).flatten = s :=
  relayChunks_flatten_aux s.length sched i s (Nat.le_refl _)

theorem relayChunks_sizes_aux (n : Nat) :
    ∀ (sched : Nat → Nat) (i : Nat) (s : List Nat), s.length ≤ n →
      ∀ c ∈ relayChunks sched i s, c ≠ [] ∧ c.length ≤ 8192 := by
  induction n with
  | zero =>
    intro sched i s h c hc
    have hs : s = [] := List.eq_nil_of_length_eq_zero (Nat.le_zero.mp h)
    rw [hs, relayChunks_nil] at hc
    exact absurd hc (List.not_mem_nil c)
  | succ m ih =>
    intro sched i s h c hc
    by_cases hs : s = []
    · rw [hs, relayChunks_nil] at hc
      exact absurd hc (List.not_mem_nil c)
    · rw [relayChunks] at hc
      simp only [hs, if_false] at hc
      rcases List.mem_cons.mp hc with hc | hc
      · subst hc
        constructor
        · have hpos : 0 < s.length := List.length_pos.mpr hs
          have : 0 < (s.take (max 1 (min 8192 (sched i)))).length := by
            simp only [List.length_take]
            omega
          exact List.ne_nil_of_length_pos this
        · simp only [List.length_take]
          omega
      · have hlen : (s.drop (max 1 (min 8192 (sched i)))).length ≤ m := by
          simp only [List.length_drop]
          have hpos : 0 < s.length := List.length_pos.mpr hs
          omega
        exact ih sched (i + 1) _ hlen c hc

theorem relayChunks_sizes (sched : Nat → Nat) (i : Nat) (s : List Nat) :
    ∀ c ∈ relayChunks sched i s, c ≠ [] ∧ c.length ≤ 8192 :=
  relayChunks_sizes_aux s.length sched i s (Nat.le_refl _)

/-! ## The SSE endpoint

Embeds `/search_and_prepare_song_sse` and its generator
`generate_events` (src/main.py lines 78-184).  The environment records
the outcome of the external calls: the ytmusic search (which may raise,
caught by the generator's blanket handler) and, for each candidate
index, the outcome of the yt-dlp metadata subprocess that would be run
for that candidate.  The generator only ever consults index 0.  The run
records the event list, which candidate indices were attempted, whether
the metadata subprocess was spawned, and whether it is still running
once the generator finishes (after `communicate(timeout=30)` raises
`TimeoutExpired`, the child is not killed and the handler does not kill
it either). -/

inductive SseStatus where
  | searching
  | errorStatus
  | foundInitial
  | foundDetailed
  | readyToStream
deriving DecidableEq

structure SseEvent where
  status : SseStatus
  message : String
deriving DecidableEq

structure Candidate where
  videoId : Option String
  title : String
deriving DecidableEq

/-- Outcome of the yt-dlp metadata fetch subprocess for one candidate:
`communicate` timed out; the process exited non-zero with some stderr;
it exited zero but its stdout was not valid JSON; an exception was
raised while massaging the metadata (caught by the blanket handler); or
it succeeded, yielding a title and an artist. -/
inductive FetchOutcome where
  | timeout
  | exitNonzero (stderr : String)
  | badJson
  | metaRaises
  | ok (title artist : String)
deriving DecidableEq

/-- Outcome of `ytmusic.search`: it raised an exception, or returned a
ranked candidate list. -/
inductive SearchOutcome where
  | raises
  | results (cs : List Candidate)

structure SseEnv where
  cookiesExists : Bool
  search : SearchOutcome
  resolve : Nat → FetchOutcome

structure EventsRun where
  events : List SseEvent
  attempted : List Nat
  procArgv : List String
  procSpawned : Bool
  procRunningAfter : Bool

/-- The yt-dlp metadata command of the SSE flow: base options plus
`format`, `dump_json`, `skip_download`, `noplaylist`, then the watch
URL appended as one argument. -/
def ytDlpInfoCommand (fs : String → Bool) (videoId : String) : List String :=
  buildYtDlpCommand fs ["yt-dlp"]
    (getYdlOpts fs
      [("format", PyVal.vStr "bestaudio/best"),
       ("dump_json", PyVal.vBool true),
       ("skip_download", PyVal.vBool true),
       ("noplaylist", PyVal.vBool true)]) ++ [watchUrl videoId]

/-- Embeds `generate_events` for query `q`: yield `searching`; on a
search failure or an empty result list or a missing videoId, yield one
error event and stop; otherwise yield `found_initial`, spawn the
metadata subprocess for candidate 0, and depending on its outcome yield
one error event or `found_detailed` followed by `ready_to_stream`. -/
def generateEventsRun (q : String) (env : SseEnv) : EventsRun :=
  let searchingEv : SseEvent :=
    ⟨SseStatus.searching, "Searching for \"" ++ q ++ "\"..."⟩
  let fs : String → Bool := fun _ => env.cookiesExists
  match env.search with
  | SearchOutcome.raises =>
      ⟨[searchingEv,
        ⟨SseStatus.errorStatus,
         "An unexpected server error occurred preparing the song."⟩],
       [], [], false, false⟩
  | SearchOutcome.results [] =>
      ⟨[searchingEv,
        ⟨SseStatus.errorStatus, "No songs found for \"" ++ q ++ "\""⟩],
       [], [], false, false⟩
  | SearchOutcome.results (c :: _) =>
      match c.videoId with
      | none =>
          ⟨[searchingEv,
            ⟨SseStatus.errorStatus, "Could not get video ID for the song."⟩],
           [], [], false, false⟩
      | some vid =>
          let foundEv : SseEvent :=
            ⟨SseStatus.foundInitial,
             "Initial match: " ++ c.title ++ ". Fetching details..."⟩
          let argv := ytDlpInfoCommand fs vid
          match env.resolve 0 with
          | FetchOutcome.timeout =>
              ⟨[searchingEv, foundEv,
                ⟨SseStatus.errorStatus, "Fetching song details timed out."⟩],
               [0], argv, true, true⟩
          | FetchOutcome.exitNonzero err =>
              ⟨[searchingEv, foundEv,
                ⟨SseStatus.errorStatus,
                 "Error fetching song details: "
                   ++ (if err = "" then "Video unavailable or restricted." else err)⟩],
               [0], argv, true, false⟩
          | FetchOutcome.badJson =>
              ⟨[searchingEv, foundEv,
                ⟨SseStatus.errorStatus,
                 "Error processing song details (JSON parse failed)."⟩],
               [0], argv, true, false⟩
          | FetchOutcome.metaRaises =>
              ⟨[searchingEv, foundEv,
                ⟨SseStatus.errorStatus,
                 "An unexpected server error occurred preparing the song."⟩],
               [0], argv, true, false⟩
          | FetchOutcome.ok title artist =>
              ⟨[searchingEv, foundEv,
                ⟨SseStatus.foundDetailed,
                 "Details acquired: " ++ title ++ " by " ++ artist⟩,
                ⟨SseStatus.readyToStream, "Ready to stream: " ++ title⟩],
               [0], argv, true, false⟩

/-- Embeds the `search_and_prepare_song_sse` handler: an absent or empty
`query` parameter (Python falsiness of `request.args.get('query')`)
yields the single error event without running `generate_events`;
otherwise the generator runs. -/
def searchAndPrepareSongSse (q : Option String) (env : SseEnv) : EventsRun :=
  match q with
  | none =>
      ⟨[⟨SseStatus.errorStatus, "Search query is required"⟩], [], [], false, false⟩
  | some s =>
      if s = "" then
        ⟨[⟨SseStatus.errorStatus, "Search query is required"⟩], [], [], false, false⟩
      else generateEventsRun s env

/-! ## The stream_audio endpoint

Embeds `/stream_audio/<video_id>` (src/main.py lines 187-305).  The
handler sanitizes the `startTime` query parameter, runs the yt-dlp
get-url subprocess, validates the resulting locator, builds the ffmpeg
command, spawns ffmpeg, and streams its stdout through
`generate_audio_chunks`, whose `finally` block closes the pipes and
terminates the process.  Every external outcome is a parameter of the
environment. -/

/-- The `startTime` query parameter as received: absent
(`request.args.get('startTime', '0')` then yields the default `'0'`),
present but not parseable by `float` (raising `ValueError`), or a
numeric value (modelled as a rational). -/
inductive StartTimeParam where
  | absent
  | nonNumeric (s : String)
  | numeric (t : ℚ)

/-- Embeds lines 192-197: the default `'0'` parses to 0, a `ValueError`
resets to 0, and a negative value is clamped to 0. -/
def sanitizeStartTime : StartTimeParam → ℚ
  | StartTimeParam.absent => 0
  | StartTimeParam.nonNumeric _ => 0
  | StartTimeParam.numeric t => if t < 0 then 0 else t

/-- Embeds lines 243-244: the `-ss` seek arguments are added only when
the sanitized start time exceeds 0.1 seconds. -/
def seekArgs (t : ℚ) : List String :=
  if t > 1 / 10 then ["-ss", toString t] else []

/-- The fixed ffmpeg arguments before the optional seek. -/
def ffmpegPre : List String :=
  ["ffmpeg", "-nostats", "-hide_banner", "-loglevel", "warning"]

/-- The fixed ffmpeg arguments after the optional seek, around the
input locator. -/
def ffmpegPost (url : String) : List String :=
  ["-i", url, "-vn", "-c:a", "copy",
   "-movflags", "frag_keyframe+empty_moov", "-f", "webm", "pipe:1"]

/-- Embeds the ffmpeg command construction of lines 238-254. -/
def ffmpegCommand (t : ℚ) (url : String) : List String :=
  ffmpegPre ++ seekArgs t ++ ffmpegPost url

/-- The yt-dlp get-url options of lines 202-206. -/
def ytDlpUrlOpts (fs : String → Bool) : List (String × PyVal) :=
  getYdlOpts fs
    [("format", PyVal.vStr "bestaudio[ext=webm]/bestaudio[ext=m4a]/bestaudio"),
     ("get_url", PyVal.vBool true),
     ("noplaylist", PyVal.vBool true)]

/-- The full yt-dlp get-url command: built options plus the watch URL
appended as one argument (lines 208-209). -/
def ytDlpGetUrlCommand (fs : String → Bool) (videoId : String) : List String :=
  buildYtDlpCommand fs ["yt-dlp"] (ytDlpUrlOpts fs) ++ [watchUrl videoId]

/-- Python whitespace for `str.strip()` (the characters that occur in
this program's subprocess output). -/
def pyWhitespace (c : Char) : Bool :=
  c = ' ' || c = '\n' || c = '\t' || c = '\r'

/-- Python `str.strip()`: drop leading and trailing whitespace. -/
def pyStrip (s : String) : String :=
  String.mk (((s.data.dropWhile pyWhitespace).reverse.dropWhile pyWhitespace).reverse)

/-- Python `str.startswith(pre)`. -/
def pyStartsWith (s pre : String) : Bool :=
  pre.data.isPrefixOf s.data

/-- Embeds line 225: the extractor's output must start with `http://`
or `https://` to count as a stream locator. -/
def validStreamUrl (u : String) : Bool :=
  pyStartsWith u "http://" || pyStartsWith u "https://"

/-- Outcome of the yt-dlp get-url subprocess: `communicate(timeout=20)`
raised `TimeoutExpired`; some other exception was raised after the
process was reaped; or the process finished with a return code, stdout
and stderr. -/
inductive GetUrlOutcome where
  | timeout
  | raises
  | done (returncode : Int) (stdout stderr : String)

/-- Outcome of spawning ffmpeg: the executable was not found, `Popen`
raised some other exception, or the process started. -/
inductive FfmpegLaunch where
  | fileNotFound
  | raises
  | ok

/-- How the chunk-yield loop of `generate_audio_chunks` ends: the
source reached end-of-stream; the client disconnected (a
`BrokenPipeError` at a yield); or some other exception was raised. -/
inductive StreamRun where
  | completed
  | brokenPipe
  | genError

inductive LogLevel where
  | info
  | warning
  | errorLevel
  | critical
deriving DecidableEq

/-- The log records emitted by `generate_audio_chunks`, identified
structurally (each constructor is one `logger.<level>` call site). -/
inductive LogMsg where
  | startYield (vid : String)
  | finishedYield (vid : String)
  | brokenPipeNote (vid : String)
  | generationError (vid : String)
  | cleaningUp (vid : String)
  | ffmpegStderrNote (vid s : String)
  | stillRunning (vid : String)
  | killedHard (vid : String)
  | cleanupComplete (vid : String)
deriving DecidableEq

structure StreamEnv where
  videoId : String
  startParam : StartTimeParam
  cookiesExists : Bool
  getUrl : GetUrlOutcome
  ffmpegLaunch : FfmpegLaunch
  streamRun : StreamRun
  ffmpegStderrOutput : String
  ffmpegRunningAtCleanup : Bool
  ffmpegExitsInGrace : Bool

structure StreamResult where
  status : Nat
  isAudioStream : Bool
  ytDlpSpawned : Bool
  ytDlpArgv : List String
  ytDlpShell : Bool
  ytDlpRunningAfter : Bool
  ffmpegSpawned : Bool
  ffmpegArgv : List String
  ffmpegShell : Bool
  ffmpegStdoutClosed : Bool
  ffmpegStderrClosed : Bool
  ffmpegTerminalAfter : Bool
  generatorRaised : Bool
  logs : List (LogLevel × LogMsg)

/-- A result on a path where ffmpeg was never spawned. -/
def noSpawnResult (status : Nat) : StreamResult :=
  { status := status, isAudioStream := false,
    ytDlpSpawned := false, ytDlpArgv := [], ytDlpShell := false,
    ytDlpRunningAfter := false,
    ffmpegSpawned := false, ffmpegArgv := [], ffmpegShell := false,
    ffmpegStdoutClosed := false, ffmpegStderrClosed := false,
    ffmpegTerminalAfter := true, generatorRaised := false, logs := [] }

/-- The log entry produced by the branch the yield loop ends on
(lines 276-283): an info note on a clean finish, a warning note on a
broken pipe, an error entry on any other exception; in every case the
exception is swallowed. -/
def streamBranchLog (vid : String) : StreamRun → LogLevel × LogMsg
  | StreamRun.completed => (LogLevel.info, LogMsg.finishedYield vid)
  | StreamRun.brokenPipe => (LogLevel.warning, LogMsg.brokenPipeNote vid)
  | StreamRun.genError => (LogLevel.errorLevel, LogMsg.generationError vid)

/-- The log entries of the `finally` block (lines 284-302): a cleanup
note, the captured stderr if non-empty, then, if the process is still
running, a terminate attempt escalating to a kill when the 5-second
grace period is exceeded, and a completion note. -/
def cleanupLogs (env : StreamEnv) : List (LogLevel × LogMsg) :=
  [(LogLevel.info, LogMsg.cleaningUp env.videoId)]
    ++ (if env.ffmpegStderrOutput = "" then []
        else [(LogLevel.warning,
               LogMsg.ffmpegStderrNote env.videoId env.ffmpegStderrOutput)])
    ++ (if env.ffmpegRunningAtCleanup then
          (LogLevel.warning, LogMsg.stillRunning env.videoId)
            :: (if env.ffmpegExitsInGrace then []
                else [(LogLevel.errorLevel, LogMsg.killedHard env.videoId)])
        else [])
    ++ [(LogLevel.info, LogMsg.cleanupComplete env.videoId)]

/-- Embeds the `stream_audio` handler.  On the timeout path
(`subprocess.TimeoutExpired` from `communicate(timeout=20)`, lines
230-232) the yt-dlp child is not killed: the handler returns 504 with
the process still running.  The streaming path spawns ffmpeg
(shell-free `Popen` with an argument list) and runs
`generate_audio_chunks` to the end of its `finally` block, which closes
both pipes and terminates, then kills, a still-running process. -/
def streamAudio (env : StreamEnv) : StreamResult :=
  if env.videoId = "" then noSpawnResult 400
  else
    let fs : String → Bool := fun _ => env.cookiesExists
    let t := sanitizeStartTime env.startParam
    let argv := ytDlpGetUrlCommand fs env.videoId
    match env.getUrl with
    | GetUrlOutcome.timeout =>
        { noSpawnResult 504 with
            ytDlpSpawned := true, ytDlpArgv := argv, ytDlpRunningAfter := true }
    | GetUrlOutcome.raises =>
        { noSpawnResult 500 with ytDlpSpawned := true, ytDlpArgv := argv }
    | GetUrlOutcome.done rc out _err =>
        if rc ≠ 0 then
          { noSpawnResult 502 with ytDlpSpawned := true, ytDlpArgv := argv }
        else
          let url := pyStrip out
          if ¬ validStreamUrl url then
            { noSpawnResult 502 with ytDlpSpawned := true, ytDlpArgv := argv }
          else
            match env.ffmpegLaunch with
            | FfmpegLaunch.fileNotFound =>
                { noSpawnResult 503 with ytDlpSpawned := true, ytDlpArgv := argv }
            | FfmpegLaunch.raises =>
                { noSpawnResult 500 with ytDlpSpawned := true, ytDlpArgv := argv }
            | FfmpegLaunch.ok =>
                { status := 200, isAudioStream := true,
                  ytDlpSpawned := true, ytDlpArgv := argv,
                  ytDlpShell := false, ytDlpRunningAfter := false,
                  ffmpegSpawned := true, ffmpegArgv := ffmpegCommand t url,
                  ffmpegShell := false,
                  ffmpegStdoutClosed := true, ffmpegStderrClosed := true,
                  ffmpegTerminalAfter := true, generatorRaised := false,
                  logs := (LogLevel.info, LogMsg.startYield env.videoId)
                            :: streamBranchLog env.videoId env.streamRun
                            :: cleanupLogs env }

/-! ## Claim theorems -/

/-- C2: for every finite source byte stream produced by the transcoder
process, the relay reads chunks of at most the fixed request size 8192
until a zero-length read (which happens exactly at end of stream), and
the concatenation of the delivered chunks equals the source bytes —
same order, no insertions, drops, or duplications — for every read
schedule and every stream length, including streams several multiples
of the chunk size long. -/
theorem relay_preserves_source_bytes (sched : Nat → Nat) (s : List Nat) :
    (relayChunks sched 0 s).flatten = s ∧
    relayChunks sched 0 [] = [] ∧
    (∀ c ∈ relayChunks sched 0 s, c ≠ [] ∧ c.length ≤ 8192) :=
  ⟨relayChunks_flatten sched 0 s, relayChunks_nil sched 0,
   relayChunks_sizes sched 0 s⟩

/-- C4: in SSE mode the status events occur in strict order —
searching, then found (found_initial, then found_detailed), then
ready_to_stream — with an error event possibly replacing the remainder
at any point, and the sequence never contains both a ready_to_stream
event and an error event. -/
theorem sse_events_strictly_ordered (q : String) (env : SseEnv) :
    ((generateEventsRun q env).events.map SseEvent.status
        = [SseStatus.searching, SseStatus.errorStatus] ∨
     (generateEventsRun q env).events.map SseEvent.status
        = [SseStatus.searching, SseStatus.foundInitial, SseStatus.errorStatus] ∨
     (generateEventsRun q env).events.map SseEvent.status
        = [SseStatus.searching, SseStatus.foundInitial,
           SseStatus.foundDetailed, SseStatus.readyToStream]) ∧
    ¬ (SseStatus.readyToStream ∈ (generateEventsRun q env).events.map SseEvent.status ∧
       SseStatus.errorStatus ∈ (generateEventsRun q env).events.map SseEvent.status) := by
  rcases env with ⟨ce, search, resolve⟩
  cases search with
  | raises => simp [generateEventsRun]
  | results cs =>
    cases cs with
    | nil => simp [generateEventsRun]
    | cons c rest =>
      rcases c with ⟨vidOpt, title⟩
      cases vidOpt with
      | none => simp [generateEventsRun]
      | some vid =>
        cases h : resolve 0 <;> simp [generateEventsRun, h]

/-- C5: a request to the SSE endpoint with a missing (or empty) `query`
parameter is answered immediately by the single client-error event
"Search query is required", with no candidate attempted and no external
process spawned. -/
theorem missing_query_no_process (env : SseEnv) :
    (searchAndPrepareSongSse none env).events
      = [⟨SseStatus.errorStatus, "Search query is required"⟩] ∧
    (searchAndPrepareSongSse none env).procSpawned = false ∧
    (searchAndPrepareSongSse none env).attempted = [] ∧
    (searchAndPrepareSongSse (some "") env).events
      = [⟨SseStatus.errorStatus, "Search query is required"⟩] ∧
    (searchAndPrepareSongSse (some "") env).procSpawned = false := by
  refine ⟨rfl, rfl, rfl, ?_, ?_⟩ <;> simp [searchAndPrepareSongSse]

/-- An SSE environment whose metadata subprocess exceeds the 30-second
`communicate` timeout. -/
def timeoutSseEnv : SseEnv :=
  ⟨false, SearchOutcome.results [⟨some "vid0", "title0"⟩],
   fun _ => FetchOutcome.timeout⟩

/-- A stream_audio environment whose yt-dlp get-url subprocess exceeds
the 20-second `communicate` timeout. -/
def timeoutStreamEnv : StreamEnv :=
  { videoId := "vid0", startParam := StartTimeParam.absent,
    cookiesExists := false, getUrl := GetUrlOutcome.timeout,
    ffmpegLaunch := FfmpegLaunch.ok, streamRun := StreamRun.completed,
    ffmpegStderrOutput := "", ffmpegRunningAtCleanup := false,
    ffmpegExitsInGrace := true }

/-- A stream_audio environment whose yt-dlp get-url subprocess exits
non-zero (a generic extraction failure). -/
def failStreamEnv : StreamEnv :=
  { timeoutStreamEnv with getUrl := GetUrlOutcome.done 1 "" "boom" }

/-- C1 (code_bug evaluation): on the resolve-phase timeout path both
handlers finish their response generation (the SSE generator emits its
final error event; stream_audio returns 504) while the yt-dlp process
they spawned is still running — `communicate(timeout=...)` does not
kill the child on `TimeoutExpired` and neither handler does, so a
spawned process outlives the handler, contradicting the claimed
invariant. -/
theorem timeout_path_leaves_spawned_process_running :
    (generateEventsRun "q" timeoutSseEnv).procSpawned = true ∧
    (generateEventsRun "q" timeoutSseEnv).procRunningAfter = true ∧
    (generateEventsRun "q" timeoutSseEnv).events.map SseEvent.status
      = [SseStatus.searching, SseStatus.foundInitial, SseStatus.errorStatus] ∧
    (streamAudio timeoutStreamEnv).ytDlpSpawned = true ∧
    (streamAudio timeoutStreamEnv).ytDlpRunningAfter = true ∧
    (streamAudio timeoutStreamEnv).status = 504 :=
  ⟨rfl, rfl, rfl, rfl, rfl, rfl⟩

/-- C8 (code_bug evaluation): the resolve-phase timeout is surfaced
distinctly (HTTP 504 with its own message, against 502 for a generic
extractor failure; the SSE flow emits the dedicated timed-out error
event), but the supervisor does not kill the extraction process: after
the timeout the yt-dlp child is still running. -/
theorem timeout_surfaced_distinctly_but_not_killed :
    (streamAudio timeoutStreamEnv).status = 504 ∧
    (streamAudio failStreamEnv).status = 502 ∧
    (generateEventsRun "q" timeoutSseEnv).events.getLast?
      = some ⟨SseStatus.errorStatus, "Fetching song details timed out."⟩ ∧
    (streamAudio timeoutStreamEnv).ytDlpRunningAfter = true :=
  ⟨rfl, rfl, rfl, rfl⟩

/-- A stream_audio environment that reaches the streaming phase and
then sees the client disconnect (BrokenPipeError) mid-stream. -/
def disconnectEnv : StreamEnv :=
  { videoId := "vidD", startParam := StartTimeParam.absent,
    cookiesExists := false,
    getUrl := GetUrlOutcome.done 0 "https://cdn.example.com/audio\n" "",
    ffmpegLaunch := FfmpegLaunch.ok, streamRun := StreamRun.brokenPipe,
    ffmpegStderrOutput := "", ffmpegRunningAtCleanup := true,
    ffmpegExitsInGrace := true }

/-- C3 counterexample: on a client disconnect the note recorded for the
broken pipe is emitted at warning level, not at info level — the claim
that the disconnect is recorded as an info-level note fails on this
concrete run. -/
theorem disconnect_note_is_warning_level_not_info :
    (LogLevel.warning, LogMsg.brokenPipeNote "vidD") ∈ (streamAudio disconnectEnv).logs ∧
    (LogLevel.info, LogMsg.brokenPipeNote "vidD") ∉ (streamAudio disconnectEnv).logs := by
  decide

/-- C3 amended: when the consumer disconnects mid-stream (broken pipe),
no exception propagates out of the streaming generator, the cleanup
path still runs (both pipes closed, the transcoder process driven to a
terminal state), and the disconnect is recorded as a warning-level
note — not as an error-level crash entry. -/
theorem disconnect_handled_gracefully (env : StreamEnv) (out err : String)
    (hv : env.videoId ≠ "")
    (hg : env.getUrl = GetUrlOutcome.done 0 out err)
    (hu : validStreamUrl (pyStrip out) = true)
    (hl : env.ffmpegLaunch = FfmpegLaunch.ok)
    (hr : env.streamRun = StreamRun.brokenPipe) :
    (streamAudio env).generatorRaised = false ∧
    (streamAudio env).ffmpegStdoutClosed = true ∧
    (streamAudio env).ffmpegStderrClosed = true ∧
    (streamAudio env).ffmpegTerminalAfter = true ∧
    (LogLevel.warning, LogMsg.brokenPipeNote env.videoId) ∈ (streamAudio env).logs ∧
    (LogLevel.info, LogMsg.brokenPipeNote env.videoId) ∉ (streamAudio env).logs ∧
    (LogLevel.errorLevel, LogMsg.generationError env.videoId) ∉ (streamAudio env).logs := by
  have hmain : streamAudio env =
      { status := 200, isAudioStream := true,
        ytDlpSpawned := true,
        ytDlpArgv := ytDlpGetUrlCommand (fun _ => env.cookiesExists) env.videoId,
        ytDlpShell := false, ytDlpRunningAfter := false,
        ffmpegSpawned := true,
        ffmpegArgv := ffmpegCommand (sanitizeStartTime env.startParam) (pyStrip out),
        ffmpegShell := false,
        ffmpegStdoutClosed := true, ffmpegStderrClosed := true,
        ffmpegTerminalAfter := true, generatorRaised := false,
        logs := (LogLevel.info, LogMsg.startYield env.videoId)
                  :: streamBranchLog env.videoId env.streamRun
                  :: cleanupLogs env } := by
    rw [streamAudio]
    simp only [hv, if_false, hg, hl]
    simp [hu]
  rw [hmain, hr]
  refine ⟨rfl, rfl, rfl, rfl, ?_, ?_, ?_⟩
  · simp [streamBranchLog]
  · by_cases h1 : env.ffmpegStderrOutput = "" <;>
      by_cases h2 : env.ffmpegRunningAtCleanup <;>
      by_cases h3 : env.ffmpegExitsInGrace <;>
      simp [cleanupLogs, streamBranchLog, h1, h2, h3]
  · by_cases h1 : env.ffmpegStderrOutput = "" <;>
      by_cases h2 : env.ffmpegRunningAtCleanup <;>
      by_cases h3 : env.ffmpegExitsInGrace <;>
      simp [cleanupLogs, streamBranchLog, h1, h2, h3]

/-- Witness for the amended C3 theorem at the concrete disconnect
environment. -/
theorem disconnect_handled_gracefully_witness :
    (streamAudio disconnectEnv).generatorRaised = false ∧
    (streamAudio disconnectEnv).ffmpegStdoutClosed = true ∧
    (streamAudio disconnectEnv).ffmpegStderrClosed = true ∧
    (streamAudio disconnectEnv).ffmpegTerminalAfter = true ∧
    (LogLevel.warning, LogMsg.brokenPipeNote "vidD") ∈ (streamAudio disconnectEnv).logs ∧
    (LogLevel.info, LogMsg.brokenPipeNote "vidD") ∉ (streamAudio disconnectEnv).logs ∧
    (LogLevel.errorLevel, LogMsg.generationError "vidD") ∉ (streamAudio disconnectEnv).logs :=
  disconnect_handled_gracefully disconnectEnv "https://cdn.example.com/audio\n" ""
    (by decide) rfl (by decide) rfl rfl

/-- A ranked candidate list where candidate 0 fails resolution and
candidate 1 would resolve successfully. -/
def retryEnv : SseEnv :=
  ⟨false,
   SearchOutcome.results [⟨some "vidA", "titleA"⟩, ⟨some "vidB", "titleB"⟩],
   fun i => if i = 0 then FetchOutcome.exitNonzero "resolution failed"
            else FetchOutcome.ok "titleB" "artistB"⟩

/-- C7 counterexample: with a ranked list where the first candidate
fails resolution and the second would succeed (K = 1), the pipeline
attempts only candidate 0, reports an error, and never reaches
ready_to_stream — the claimed retry to candidate K+1 does not happen. -/
theorem retry_claim_fails_on_second_candidate :
    retryEnv.resolve 0 = FetchOutcome.exitNonzero "resolution failed" ∧
    retryEnv.resolve 1 = FetchOutcome.ok "titleB" "artistB" ∧
    (generateEventsRun "song" retryEnv).attempted = [0] ∧
    (generateEventsRun "song" retryEnv).events.map SseEvent.status
      = [SseStatus.searching, SseStatus.foundInitial, SseStatus.errorStatus] ∧
    SseStatus.readyToStream ∉
      (generateEventsRun "song" retryEnv).events.map SseEvent.status := by
  refine ⟨rfl, rfl, rfl, rfl, ?_⟩
  decide

/-- C7 amended: the pipeline attempts only the first candidate of the
ranked list (the retry property holds only for K = 0): when candidate 0
resolves successfully the run succeeds with no error event, and when
candidate 0 fails resolution an error is reported without any further
candidate being attempted. -/
theorem only_first_candidate_attempted (q : String) (env : SseEnv)
    (c : Candidate) (rest : List Candidate) (v : String)
    (hs : env.search = SearchOutcome.results (c :: rest))
    (hv : c.videoId = some v) :
    (generateEventsRun q env).attempted = [0] ∧
    (∀ title artist, env.resolve 0 = FetchOutcome.ok title artist →
        SseStatus.readyToStream ∈
          (generateEventsRun q env).events.map SseEvent.status ∧
        SseStatus.errorStatus ∉
          (generateEventsRun q env).events.map SseEvent.status) ∧
    ((∀ title artist, env.resolve 0 ≠ FetchOutcome.ok title artist) →
        SseStatus.errorStatus ∈
          (generateEventsRun q env).events.map SseEvent.status ∧
        SseStatus.readyToStream ∉
          (generateEventsRun q env).events.map SseEvent.status) := by
  rcases env with ⟨ce, search, resolve⟩
  simp only at hs
  subst hs
  rcases c with ⟨vidOpt, title0⟩
  simp only at hv
  subst hv
  refine ⟨?_, ?_, ?_⟩
  · cases h : resolve 0 <;> simp [generateEventsRun, h]
  · intro title artist hok
    have hok2 : resolve 0 = FetchOutcome.ok title artist := hok
    simp [generateEventsRun, hok2]
  · intro hfail
    cases h : resolve 0 with
    | ok t a =>
      have hne : resolve 0 ≠ FetchOutcome.ok t a := hfail t a
      exact absurd h hne
    | timeout => simp [generateEventsRun, h]
    | exitNonzero e => simp [generateEventsRun, h]
    | badJson => simp [generateEventsRun, h]
    | metaRaises => simp [generateEventsRun, h]

/-- Witness for the amended C7 theorem at the concrete two-candidate
environment. -/
theorem only_first_candidate_attempted_witness :
    (generateEventsRun "song" retryEnv).attempted = [0] :=
  (only_first_candidate_attempted "song" retryEnv
      ⟨some "vidA", "titleA"⟩ [⟨some "vidB", "titleB"⟩] "vidA" rfl rfl).1

/-- C6: the yt-dlp command line is produced by the single pure function
`buildYtDlpCommand` from the option dictionary — a true boolean becomes
the lone flag, a false boolean nothing, string and int scalars become
the flag followed by the stringified value, underscores in keys become
hyphens (the cookies key additionally consults the filesystem to skip a
missing cookies file) — and every subprocess of the handler is invoked
with an argument list and without a shell, the user-influenced watch
URL being passed as one opaque trailing argument. -/
theorem yt_dlp_command_pure_and_shell_free :
    (∀ (fs : String → Bool) (base : List String) (opts : List (String × PyVal)),
        buildYtDlpCommand fs base opts
          = base ++ opts.flatMap (fun kv => optFragment fs kv.1 kv.2)) ∧
    (∀ (fs : String → Bool) (k : String), k ≠ "cookies" →
        optFragment fs k (PyVal.vBool true) = ["--" ++ hyphenate k]) ∧
    (∀ (fs : String → Bool) (k : String), k ≠ "cookies" →
        optFragment fs k (PyVal.vBool false) = []) ∧
    (∀ (fs : String → Bool) (k s : String), k ≠ "cookies" →
        optFragment fs k (PyVal.vStr s) = ["--" ++ hyphenate k, s]) ∧
    (∀ (fs : String → Bool) (k : String) (n : Int), k ≠ "cookies" →
        optFragment fs k (PyVal.vInt n) = ["--" ++ hyphenate k, toString n]) ∧
    (∀ env : StreamEnv,
        (streamAudio env).ytDlpShell = false ∧ (streamAudio env).ffmpegShell = false) ∧
    (∀ (fs : String → Bool) (vid : String),
        ytDlpGetUrlCommand fs vid
          = buildYtDlpCommand fs ["yt-dlp"] (ytDlpUrlOpts fs) ++ [watchUrl vid]) := by
  refine ⟨fun fs base opts => rfl, ?_, ?_, ?_, ?_, ?_, fun fs vid => rfl⟩
  · intro fs k hk
    simp [optFragment, hk]
  · intro fs k hk
    simp [optFragment, hk]
  · intro fs k s hk
    simp [optFragment, hk]
  · intro fs k n hk
    simp [optFragment, hk]
  · intro env
    simp only [streamAudio]
    repeat' split
    all_goals exact ⟨rfl, rfl⟩

/-- Witness for C6: the flag rules evaluated at the concrete options
this program uses. -/
theorem yt_dlp_command_pure_and_shell_free_witness :
    optFragment (fun _ => false) "get_url" (PyVal.vBool true) = ["--get-url"] ∧
    optFragment (fun _ => false) "format" (PyVal.vStr "bestaudio/best")
      = ["--format", "bestaudio/best"] := by
  constructor
  · have h := yt_dlp_command_pure_and_shell_free.2.1
      (fun _ => false) "get_url" (by decide)
    rw [h]
    rfl
  · have h := yt_dlp_command_pure_and_shell_free.2.2.2.1
      (fun _ => false) "format" "bestaudio/best" (by decide)
    rw [h]
    rfl

/-- C9: the seek offset is sanitized — an absent, non-numeric, or
negative `startTime` becomes 0 — and the `-ss` seek arguments are
produced exactly when the sanitized offset exceeds 0.1 seconds, so any
seek value handed to the transcoder is strictly positive. -/
theorem seek_offset_sanitized :
    sanitizeStartTime StartTimeParam.absent = 0 ∧
    (∀ s, sanitizeStartTime (StartTimeParam.nonNumeric s) = 0) ∧
    (∀ t : ℚ, sanitizeStartTime (StartTimeParam.numeric t) = if t < 0 then 0 else t) ∧
    (∀ p, 0 ≤ sanitizeStartTime p) ∧
    (∀ t : ℚ, seekArgs t = if t > 1 / 10 then ["-ss", toString t] else []) ∧
    (∀ p, seekArgs (sanitizeStartTime p) ≠ [] →
        1 / 10 < sanitizeStartTime p ∧ 0 < sanitizeStartTime p) ∧
    (∀ (t : ℚ) (url : String),
        ffmpegCommand t url = ffmpegPre ++ seekArgs t ++ ffmpegPost url) := by
  refine ⟨rfl, fun s => rfl, fun t => rfl, ?_, fun t => rfl, ?_, fun t url => rfl⟩
  · intro p
    cases p with
    | absent => norm_num [sanitizeStartTime]
    | nonNumeric s => norm_num [sanitizeStartTime]
    | numeric t =>
      by_cases h : t < 0
      · simp [sanitizeStartTime, h]
      · simp only [sanitizeStartTime, if_neg h]
        linarith [not_lt.mp h]
  · intro p hne
    have h : 1 / 10 < sanitizeStartTime p := by
      by_contra hcon
      apply hne
      simp only [seekArgs]
      rw [if_neg hcon]
    exact ⟨h, lt_trans (by norm_num) h⟩

/-- Witness for C9 at concrete offsets. -/
theorem seek_offset_sanitized_witness :
    sanitizeStartTime (StartTimeParam.numeric (-3)) = 0 ∧
    (1 / 10 < sanitizeStartTime (StartTimeParam.numeric 5) ∧
      0 < sanitizeStartTime (StartTimeParam.numeric 5)) := by
  constructor
  · rw [seek_offset_sanitized.2.2.1 (-3)]
    norm_num
  · exact seek_offset_sanitized.2.2.2.2.2.1 (StartTimeParam.numeric 5)
      (by
        intro hcon
        rw [seek_offset_sanitized.2.2.2.2.1] at hcon
        norm_num [sanitizeStartTime] at hcon
        exact List.cons_ne_nil _ _ hcon)

/-- C10: the transcoder can be spawned only when the extractor finished
with exit code 0 and its stripped stdout starts with http:// or
https://; for any extractor output not of that shape the handler
returns 502 and never starts the transcoder. -/
theorem transcoder_gated_on_url_validation (env : StreamEnv)
    (hv : env.videoId ≠ "") :
    ((streamAudio env).ffmpegSpawned = true →
        ∃ rc out err, env.getUrl = GetUrlOutcome.done rc out err ∧ rc = 0 ∧
          validStreamUrl (pyStrip out) = true) ∧
    (∀ out err, env.getUrl = GetUrlOutcome.done 0 out err →
        validStreamUrl (pyStrip out) = false →
        (streamAudio env).status = 502 ∧ (streamAudio env).ffmpegSpawned = false) := by
  rcases env with ⟨vid, sp, ce, gu, fl, sr, so, rac, eg⟩
  constructor
  · intro hsp
    cases gu with
    | timeout => simp [streamAudio, noSpawnResult, hv] at hsp
    | raises => simp [streamAudio, noSpawnResult, hv] at hsp
    | done rc out err =>
      by_cases hrc : rc = 0
      · subst hrc
        by_cases hu : validStreamUrl (pyStrip out) = true
        · exact ⟨0, out, err, rfl, rfl, hu⟩
        · have hu2 : validStreamUrl (pyStrip out) = false := by
            simpa using hu
          simp [streamAudio, noSpawnResult, hv, hu2] at hsp
      · simp [streamAudio, noSpawnResult, hv, hrc] at hsp
  · intro out err heq hbad
    cases gu with
    | timeout => simp at heq
    | raises => simp at heq
    | done rc out2 err2 =>
      injection heq with h1 h2 h3
      subst h1
      subst h2
      subst h3
      simp [streamAudio, noSpawnResult, hv, hbad]

/-- A stream_audio environment whose extractor exits 0 but prints
something that is not an http(s) locator. -/
def badUrlEnv : StreamEnv :=
  { videoId := "vidX", startParam := StartTimeParam.absent,
    cookiesExists := false,
    getUrl := GetUrlOutcome.done 0 "ERROR: something went wrong" "",
    ffmpegLaunch := FfmpegLaunch.ok, streamRun := StreamRun.completed,
    ffmpegStderrOutput := "", ffmpegRunningAtCleanup := false,
    ffmpegExitsInGrace := true }

/-- Witness for C10 at a concrete invalid extractor output. -/
theorem transcoder_gated_on_url_validation_witness :
    (streamAudio badUrlEnv).status = 502 ∧
    (streamAudio badUrlEnv).ffmpegSpawned = false :=
  (transcoder_gated_on_url_validation badUrlEnv (by decide)).2
    "ERROR: something went wrong" "" rfl (by decide)

/-- Helper for the C2 witness: with a one-byte source and a schedule
that offers one byte per read, the relay yields exactly one chunk. -/
theorem relayChunks_singleton_example :
    relayChunks (fun _ => 1) 0 [5] = [[5]] := by
  rw [relayChunks]
  norm_num [relayChunks_nil]

/-- Witness for C2 at a concrete source stream, discharging the chunk
membership hypothesis at the concrete chunk. -/
theorem relay_preserves_source_bytes_witness :
    (relayChunks (fun _ => 1) 0 [5]).flatten = [5] ∧
    (([5] : List Nat) ≠ [] ∧ ([5] : List Nat).length ≤ 8192) :=
  ⟨(relay_preserves_source_bytes (fun _ => 1) [5]).1,
   (relay_preserves_source_bytes (fun _ => 1) [5]).2.2 [5]
     (by rw [relayChunks_singleton_example]; exact List.mem_singleton.mpr rfl)⟩

/-- An SSE environment whose single candidate resolves successfully. -/
def plainSseEnv : SseEnv :=
  ⟨false, SearchOutcome.results [⟨some "vidC", "titleC"⟩],
   fun _ => FetchOutcome.ok "titleC" "artistC"⟩

/-- Witness for C4 at a concrete successful run. -/
theorem sse_events_strictly_ordered_witness :
    ¬ (SseStatus.readyToStream ∈
         (generateEventsRun "q" plainSseEnv).events.map SseEvent.status ∧
       SseStatus.errorStatus ∈
         (generateEventsRun "q" plainSseEnv).events.map SseEvent.status) :=
  (sse_events_strictly_ordered "q" plainSseEnv).2
